import Mathlib

/-!
Shallow embedding of the zk-verifID classification + extraction + commitment
pipeline (src/zkpdf-template/lib/src/lib.rs, src/zkpdf-template/lib/src/utils.rs,
src/zkpdf-template/program/src/main.rs).

Strings are modelled as `List Char` (Rust `String` is a sequence of chars),
byte sequences as `List Nat` with values reduced mod 256 where they enter the
hash.  The Rust `regex` crate's leftmost-first (Perl-style) match semantics are
embedded by explicit backtracking search functions specialised to the fixed
patterns appearing in the source.  `keccak256` (from `alloy_primitives`) is
embedded as a full executable Keccak-256 implementation over `Nat`.
-/

/-! ## Character classes (the classes of the fixed patterns in lib.rs) -/

/-- Unicode White_Space code points: the set matched by the regex crate's
class and by Rust `char::is_whitespace` / `str::trim`. -/
def wsCodes : List Nat :=
  [0x9, 0xA, 0xB, 0xC, 0xD, 0x20, 0x85, 0xA0, 0x1680,
   0x2000, 0x2001, 0x2002, 0x2003, 0x2004, 0x2005, 0x2006, 0x2007,
   0x2008, 0x2009, 0x200A, 0x2028, 0x2029, 0x202F, 0x205F, 0x3000]

def isWsChar (c : Char) : Bool := wsCodes.contains c.toNat

def isDigitChar (c : Char) : Bool :=
  Nat.ble 48 c.toNat && Nat.ble c.toNat 57

def isUpperChar (c : Char) : Bool :=
  Nat.ble 65 c.toNat && Nat.ble c.toNat 90

def isLowerChar (c : Char) : Bool :=
  Nat.ble 97 c.toNat && Nat.ble c.toNat 122

/-- the class written [1-9A-Z] in the GST pattern. -/
def isEntityChar (c : Char) : Bool :=
  (Nat.ble 49 c.toNat && Nat.ble c.toNat 57) || isUpperChar c

/-- the class written [0-9A-Z]. -/
def isAlnumChar (c : Char) : Bool := isDigitChar c || isUpperChar c

/-- the class written [A-Za-z\s&.,] in both legal-name patterns. -/
def isNameChar (c : Char) : Bool :=
  isUpperChar c || isLowerChar c || isWsChar c ||
    c == '&' || c == '.' || c == ','

/-- Rust `str::trim`: strip Unicode whitespace from both ends. -/
def trimChars (s : List Char) : List Char :=
  ((s.dropWhile isWsChar).reverse.dropWhile isWsChar).reverse

/-! ## UTF-8 (Rust `str::as_bytes` yields the UTF-8 encoding) -/

def utf8EncodeChar (c : Char) : List Nat :=
  let n := c.toNat
  if n < 0x80 then [n]
  else if n < 0x800 then
    [0xC0 ||| (n >>> 6), 0x80 ||| (n &&& 0x3F)]
  else if n < 0x10000 then
    [0xE0 ||| (n >>> 12), 0x80 ||| ((n >>> 6) &&& 0x3F), 0x80 ||| (n &&& 0x3F)]
  else
    [0xF0 ||| (n >>> 18), 0x80 ||| ((n >>> 12) &&& 0x3F),
     0x80 ||| ((n >>> 6) &&& 0x3F), 0x80 ||| (n &&& 0x3F)]

/-- the UTF-8 bytes of a string, as `str::as_bytes` produces them. -/
def strBytes (s : List Char) : List Nat := (s.map utf8EncodeChar).flatten

/-! ## Keccak-256 (the hash used by `alloy_primitives::keccak256`) -/

def rotl64 (x n : Nat) : Nat :=
  ((x <<< n) ||| (x >>> (64 - n))) % (2 ^ 64)

def keccakTheta (st : List Nat) : List Nat :=
  let C := (List.range 5).map (fun x =>
    (st.getD x 0) ^^^ (st.getD (x + 5) 0) ^^^ (st.getD (x + 10) 0) ^^^
      (st.getD (x + 15) 0) ^^^ (st.getD (x + 20) 0))
  let D := (List.range 5).map (fun x =>
    (C.getD ((x + 4) % 5) 0) ^^^ rotl64 (C.getD ((x + 1) % 5) 0) 1)
  (List.range 25).map (fun i => (st.getD i 0) ^^^ (D.getD (i % 5) 0))

/-- source lane feeding each target lane under the pi permutation. -/
def keccakPiSrc : List Nat :=
  [0, 6, 12, 18, 24, 3, 9, 10, 16, 22, 1, 7, 13, 19, 20,
   4, 5, 11, 17, 23, 2, 8, 14, 15, 21]

/-- rho rotation offset applied to each target lane. -/
def keccakRhoRot : List Nat :=
  [0, 44, 43, 21, 14, 28, 20, 3, 45, 61, 1, 6, 25, 8, 18,
   27, 36, 10, 15, 56, 62, 55, 39, 41, 2]

def keccakRhoPi (st : List Nat) : List Nat :=
  (List.range 25).map (fun t =>
    rotl64 (st.getD (keccakPiSrc.getD t 0) 0) (keccakRhoRot.getD t 0))

def keccakChi (st : List Nat) : List Nat :=
  (List.range 25).map (fun i =>
    let x := i % 5
    let y := i / 5
    (st.getD i 0) ^^^
      (((st.getD ((x + 1) % 5 + 5 * y) 0) ^^^ (2 ^ 64 - 1)) &&&
        (st.getD ((x + 2) % 5 + 5 * y) 0)))

def keccakIota (rc : Nat) (st : List Nat) : List Nat :=
  match st with
  | [] => []
  | a :: rest => (a ^^^ rc) :: rest

def keccakRC : List Nat :=
  [0x0000000000000001, 0x0000000000008082, 0x800000000000808a,
   0x8000000080008000, 0x000000000000808b, 0x0000000080000001,
   0x8000000080008081, 0x8000000000008009, 0x000000000000008a,
   0x0000000000000088, 0x0000000080008009, 0x000000008000000a,
   0x000000008000808b, 0x800000000000008b, 0x8000000000008089,
   0x8000000000008003, 0x8000000000008002, 0x8000000000000080,
   0x000000000000800a, 0x800000008000000a, 0x8000000080008081,
   0x8000000000008080, 0x0000000080000001, 0x8000000080008008]

def keccakRound (st : List Nat) (rc : Nat) : List Nat :=
  keccakIota rc (keccakChi (keccakRhoPi (keccakTheta st)))

def keccakF (st : List Nat) : List Nat :=
  keccakRC.foldl keccakRound st

/-- little-endian lane from (up to) 8 bytes. -/
def bytesToLane (bs : List Nat) : Nat :=
  bs.foldr (fun b acc => acc * 256 + b % 256) 0

/-- multi-rate padding for rate 136 bytes: 0x01 ... 0x80. -/
def keccakPad (msg : List Nat) : List Nat :=
  let padLen := 136 - msg.length % 136
  if padLen == 1 then msg ++ [0x81]
  else msg ++ [0x01] ++ List.replicate (padLen - 2) 0 ++ [0x80]

def absorbBlock (st : List Nat) (block : List Nat) : List Nat :=
  keccakF ((List.range 25).map (fun i =>
    (st.getD i 0) ^^^
      (if i < 17 then bytesToLane ((block.drop (8 * i)).take 8) else 0)))

def absorbAll (padded : List Nat) : List Nat :=
  (List.range (padded.length / 136)).foldl
    (fun st k => absorbBlock st ((padded.drop (136 * k)).take 136))
    (List.replicate 25 0)

def laneToBytes (x : Nat) : List Nat :=
  (List.range 8).map (fun i => (x >>> (8 * i)) % 256)

/-- Keccak-256: 32-byte digest of a byte sequence. -/
def keccak256 (msg : List Nat) : List Nat :=
  (((absorbAll (keccakPad msg)).take 4).map laneToBytes).flatten

/-! ## Fixed-pattern matching (the regex crate's leftmost-first semantics,
specialised to the fixed patterns of lib.rs) -/

/-- check that `s` starts with chars satisfying the classes in order
(a fixed-length character-class sequence such as the GST or PAN pattern). -/
def matchClasses : List (Char → Bool) → List Char → Bool
  | [], _ => true
  | _ :: _, [] => false
  | p :: ps, c :: cs => p c && matchClasses ps cs

/-- leftmost match of a fixed-length class sequence: scan start positions left
to right, return the matched substring at the first position that matches. -/
def findFirst (cls : List (Char → Bool)) : List Char → Option (List Char)
  | [] => if matchClasses cls [] then some (([] : List Char).take cls.length) else none
  | c :: rest =>
    if matchClasses cls (c :: rest) then some ((c :: rest).take cls.length)
    else findFirst cls rest

/-- the 15 classes of the GST pattern
[0-9]{2}[A-Z]{5}[0-9]{4}[A-Z]{1}[1-9A-Z]{1}[Z]{1}[0-9A-Z]{1}. -/
def gstClasses : List (Char → Bool) :=
  [isDigitChar, isDigitChar,
   isUpperChar, isUpperChar, isUpperChar, isUpperChar, isUpperChar,
   isDigitChar, isDigitChar, isDigitChar, isDigitChar,
   isUpperChar, isEntityChar, (fun c => c == 'Z'), isAlnumChar]

/-- the 10 classes of the PAN pattern [A-Z]{5}[0-9]{4}[A-Z]{1}. -/
def panClasses : List (Char → Bool) :=
  [isUpperChar, isUpperChar, isUpperChar, isUpperChar, isUpperChar,
   isDigitChar, isDigitChar, isDigitChar, isDigitChar, isUpperChar]

/-- the terminator alternation (?:\n|STOP1|STOP2|$) of the legal-name
patterns: succeeds when the remaining text starts with a newline, with one of
the stop keywords, or is the end of the haystack. -/
def termAfter (stops : List (List Char)) (rest : List Char) : Bool :=
  (['\n'].isPrefixOf rest) || stops.any (fun st => st.isPrefixOf rest) ||
    rest.isEmpty

/-- lazy extension of the capture after at least one char has been consumed:
stop as soon as the terminator matches (lazy +? prefers the shortest), extend
by a name-class char otherwise, fail on a char outside the class. -/
def lazyExt (term : List Char → Bool) : List Char → List Char → Option (List Char)
  | acc, [] => if term [] then some acc.reverse else none
  | acc, c :: r =>
    if term (c :: r) then some acc.reverse
    else if isNameChar c then lazyExt term (c :: acc) r
    else none

/-- the lazy capture ([A-Za-z\s&.,]+?) followed by the terminator: one
mandatory name-class char, then lazy extension. -/
def lazyCapture (term : List Char → Bool) : List Char → Option (List Char)
  | [] => none
  | c :: r => if isNameChar c then lazyExt term [c] r else none

/-- greedy \s* followed by the lazy capture, with backtracking: prefer
consuming more whitespace, fall back to less when the continuation fails. -/
def wsCapture (term : List Char → Bool) : List Char → Option (List Char)
  | [] => lazyCapture term []
  | c :: r =>
    if isWsChar c then
      match wsCapture term r with
      | some res => some res
      | none => lazyCapture term (c :: r)
    else lazyCapture term (c :: r)

/-- leftmost-first search for LABEL\s*([A-Za-z\s&.,]+?)(?:\n|STOPS|$):
scan start positions left to right; at each position where the literal label
matches, run the backtracking continuation; on failure move right.  Returns
the group-1 capture.  (Both labels in the source are nonempty, so the empty
final start position can never match and is not tried.) -/
def nameSearch (label : List Char) (stops : List (List Char)) :
    List Char → Option (List Char)
  | [] => none
  | c :: rest =>
    match
      (if label.isPrefixOf (c :: rest) then
        wsCapture (termAfter stops) ((c :: rest).drop label.length)
      else none) with
    | some cap => some cap
    | none => nameSearch label stops rest

def gstNameLabel : List Char := "Legal Name".toList
def gstNameStops : List (List Char) := ["Trade Name".toList, "Additional".toList]
def panNameLabel : List Char := "Name".toList
def panNameStops : List (List Char) := ["Father".toList, "DOB".toList]

/-! ## Data model (lib.rs structs; `VerifiedDocument` is the output of the
external `verify_and_extract` collaborator, consumed at its boundary) -/

structure PdfSignatureResult where
  is_valid : Bool
  message_digest : List Nat
  public_key : List Nat
deriving DecidableEq, Repr

structure VerifiedDocument where
  pages : List (List Char)
  signature : PdfSignatureResult
deriving DecidableEq, Repr

structure GSTCertificate where
  gst_number : List Char
  legal_name : List Char
  signature : PdfSignatureResult
deriving DecidableEq, Repr

structure PANCertificate where
  pan_number : List Char
  legal_name : List Char
  signature : PdfSignatureResult
deriving DecidableEq, Repr

inductive GSTVerificationError where
  | PdfVerificationFailed : List Char → GSTVerificationError
  | RegexCompilationFailed : List Char → GSTVerificationError
  | GSTNumberNotFound : GSTVerificationError
  | LegalNameNotFound : GSTVerificationError
deriving DecidableEq, Repr

inductive PANVerificationError where
  | PdfVerificationFailed : List Char → PANVerificationError
  | RegexCompilationFailed : List Char → PANVerificationError
  | PANNumberNotFound : PANVerificationError
  | LegalNameNotFound : PANVerificationError
deriving DecidableEq, Repr

/-- Rust `Vec<String>::join(" ")`. -/
def joinPages (pages : List (List Char)) : List Char :=
  List.intercalate [' '] pages

/-- verify_gst_certificate (lib.rs), from the already-verified document:
find the first GST-pattern match, then the legal-name capture, trim it. -/
def verify_gst_certificate (doc : VerifiedDocument) :
    Except GSTVerificationError GSTCertificate :=
  let full_text := joinPages doc.pages
  match findFirst gstClasses full_text with
  | none => .error .GSTNumberNotFound
  | some gst_number =>
    match nameSearch gstNameLabel gstNameStops full_text with
    | none => .error .LegalNameNotFound
    | some cap => .ok ⟨gst_number, trimChars cap, doc.signature⟩

/-- verify_pan_certificate (lib.rs). -/
def verify_pan_certificate (doc : VerifiedDocument) :
    Except PANVerificationError PANCertificate :=
  let full_text := joinPages doc.pages
  match findFirst panClasses full_text with
  | none => .error .PANNumberNotFound
  | some pan_number =>
    match nameSearch panNameLabel panNameStops full_text with
    | none => .error .LegalNameNotFound
    | some cap => .ok ⟨pan_number, trimChars cap, doc.signature⟩

/-- gst_generate_commitment (utils.rs): successive extend_from_slice into
combined_input, then keccak256. -/
def gst_generate_commitment (gst : GSTCertificate) : List Nat :=
  let combined_input : List Nat := []
  let combined_input := combined_input ++ gst.signature.message_digest
  let combined_input := combined_input ++ strBytes gst.gst_number
  let combined_input := combined_input ++ strBytes gst.legal_name
  let combined_input := combined_input ++ gst.signature.public_key
  keccak256 combined_input

/-- pan_generate_commitment (utils.rs). -/
def pan_generate_commitment (pan : PANCertificate) : List Nat :=
  let combined_input : List Nat := []
  let combined_input := combined_input ++ pan.signature.message_digest
  let combined_input := combined_input ++ strBytes pan.pan_number
  let combined_input := combined_input ++ strBytes pan.legal_name
  let combined_input := combined_input ++ pan.signature.public_key
  keccak256 combined_input

/-! ## The program (program/src/main.rs) -/

structure GSTValuesStruct where
  gst_number : List Char
  legal_name : List Char
  signature_valid : Bool
  document_commitment : List Nat
  public_key_hash : List Nat
deriving DecidableEq, Repr

structure PANValuesStruct where
  pan_number : List Char
  legal_name : List Char
  signature_valid : Bool
  document_commitment : List Nat
  public_key_hash : List Nat
deriving DecidableEq, Repr

/-- observable outcome of running main: commit a GST record, commit a PAN
record, or abort with a panic message. -/
inductive ProgramOutput where
  | gstRecord : GSTValuesStruct → ProgramOutput
  | panRecord : PANValuesStruct → ProgramOutput
  | panic : List Char → ProgramOutput
deriving DecidableEq, Repr

def panicMsg : List Char := "No valid GST or PAN certificate found in PDF".toList

/-- main (program/src/main.rs): try GST first; on success commit the GST
record and stop; otherwise try PAN; if both fail, panic.  (Lean reserves
the name main for executables, hence the adjusted name.) -/
def mainProgram (doc : VerifiedDocument) : ProgramOutput :=
  match verify_gst_certificate doc with
  | .ok gst_cert =>
    .gstRecord ⟨gst_cert.gst_number, gst_cert.legal_name,
      gst_cert.signature.is_valid, gst_generate_commitment gst_cert,
      keccak256 gst_cert.signature.public_key⟩
  | .error _ =>
    match verify_pan_certificate doc with
    | .ok pan_cert =>
      .panRecord ⟨pan_cert.pan_number, pan_cert.legal_name,
        pan_cert.signature.is_valid, pan_generate_commitment pan_cert,
        keccak256 pan_cert.signature.public_key⟩
    | .error _ => .panic panicMsg

/-! ## Spec-side definitions (written from the specification's words, for
comparison with the source-side definitions above) -/

/-- Commitment contract of spec section 4.2: hash of the concatenation
message digest, identifier UTF-8 bytes, legal-name UTF-8 bytes, public key,
in that exact order, no delimiters or length prefixes. -/
def commitSpec (primary_identifier legal_name : List Char)
    (message_digest public_key : List Nat) : List Nat :=
  keccak256 (message_digest ++ strBytes primary_identifier ++
    strBytes legal_name ++ public_key)

/-- spec section 4.1: the input text is the concatenation of all page texts
with a single space separator between consecutive pages, order preserved. -/
def specJoin : List (List Char) → List Char
  | [] => []
  | [p] => p
  | p :: q :: rest => p ++ ' ' :: specJoin (q :: rest)

/-- the GST identifier grammar exactly as claim C4 words it: 2 digits,
5 uppercase letters, 4 digits, 1 uppercase letter, 1 alphanumeric
(any of 0-9 and A-Z), literal Z, 1 alphanumeric. -/
def gstGrammarClaim (s : List Char) : Bool :=
  match s with
  | [a, b, c, d, e, f, g, h, i, j, k, l, m, n, o] =>
    isDigitChar a && isDigitChar b && isUpperChar c && isUpperChar d &&
      isUpperChar e && isUpperChar f && isUpperChar g && isDigitChar h &&
      isDigitChar i && isDigitChar j && isDigitChar k && isUpperChar l &&
      isAlnumChar m && (n == 'Z') && isAlnumChar o
  | _ => false

/-- the grammar the source actually implements: as claim C4, except that the
character before the literal Z is drawn from 1-9 and A-Z (zero excluded). -/
def gstGrammarAmended (s : List Char) : Bool :=
  match s with
  | [a, b, c, d, e, f, g, h, i, j, k, l, m, n, o] =>
    isDigitChar a && isDigitChar b && isUpperChar c && isUpperChar d &&
      isUpperChar e && isUpperChar f && isUpperChar g && isDigitChar h &&
      isDigitChar i && isDigitChar j && isDigitChar k && isUpperChar l &&
      isEntityChar m && (n == 'Z') && isAlnumChar o
  | _ => false

/-- the PAN identifier grammar: 5 uppercase letters, 4 digits,
1 uppercase letter. -/
def panGrammar (s : List Char) : Bool :=
  match s with
  | [a, b, c, d, e, f, g, h, i, j] =>
    isUpperChar a && isUpperChar b && isUpperChar c && isUpperChar d &&
      isUpperChar e && isDigitChar f && isDigitChar g && isDigitChar h &&
      isDigitChar i && isUpperChar j
  | _ => false

/-! ## Helper lemmas -/

theorem keccakIota_length (rc : Nat) (st : List Nat) :
    (keccakIota rc st).length = st.length := by
  cases st <;> simp [keccakIota]

theorem keccakRound_length (st : List Nat) (rc : Nat) :
    (keccakRound st rc).length = 25 := by
  simp [keccakRound, keccakIota_length, keccakChi]

theorem foldl_keccakRound_length (l : List Nat) :
    ∀ st : List Nat, st.length = 25 → (l.foldl keccakRound st).length = 25 := by
  induction l with
  | nil => intro st h; simpa using h
  | cons r rest ih =>
    intro st _
    simpa using ih (keccakRound st r) (keccakRound_length st r)

theorem keccakF_length (st : List Nat) (h : st.length = 25) :
    (keccakF st).length = 25 :=
  foldl_keccakRound_length keccakRC st h

theorem absorbBlock_length (st block : List Nat) :
    (absorbBlock st block).length = 25 := by
  have h : ((List.range 25).map (fun i =>
      (st.getD i 0) ^^^
        (if i < 17 then bytesToLane ((block.drop (8 * i)).take 8) else 0))).length
        = 25 := by simp
  exact keccakF_length _ h

theorem foldl_absorbBlock_length (l : List Nat) (f : Nat → List Nat) :
    ∀ st : List Nat, st.length = 25 →
      (l.foldl (fun s k => absorbBlock s (f k)) st).length = 25 := by
  induction l with
  | nil => intro st h; simpa using h
  | cons k rest ih =>
    intro st _
    simpa using ih (absorbBlock st (f k)) (absorbBlock_length st (f k))

theorem absorbAll_length (padded : List Nat) :
    (absorbAll padded).length = 25 :=
  foldl_absorbBlock_length (List.range (padded.length / 136))
    (fun k => (padded.drop (136 * k)).take 136) (List.replicate 25 0) (by simp)

theorem laneToBytes_length (x : Nat) : (laneToBytes x).length = 8 := by
  simp [laneToBytes]

theorem flatten_map_laneToBytes_length (l : List Nat) :
    ((l.map laneToBytes).flatten).length = 8 * l.length := by
  induction l with
  | nil => simp
  | cons a rest ih => simp [ih, laneToBytes_length, Nat.mul_succ]; omega

theorem keccak256_length (msg : List Nat) : (keccak256 msg).length = 32 := by
  unfold keccak256
  rw [flatten_map_laneToBytes_length]
  rw [List.length_take, absorbAll_length]
  rfl

theorem gst_commitment_concat (g : GSTCertificate) :
    gst_generate_commitment g =
      keccak256 (g.signature.message_digest ++ strBytes g.gst_number ++
        strBytes g.legal_name ++ g.signature.public_key) := by
  simp [gst_generate_commitment, List.append_assoc]

theorem pan_commitment_concat (p : PANCertificate) :
    pan_generate_commitment p =
      keccak256 (p.signature.message_digest ++ strBytes p.pan_number ++
        strBytes p.legal_name ++ p.signature.public_key) := by
  simp [pan_generate_commitment, List.append_assoc]

theorem matchClasses_gst_take (s : List Char) :
    matchClasses gstClasses s = gstGrammarAmended (s.take 15) := by
  rcases s with _ | ⟨a, _ | ⟨b, _ | ⟨c, _ | ⟨d, _ | ⟨e, _ | ⟨f, _ | ⟨g, _ |
    ⟨h, _ | ⟨i, _ | ⟨j, _ | ⟨k, _ | ⟨l, _ | ⟨m, _ | ⟨n, _ | ⟨o, s⟩⟩⟩⟩⟩⟩⟩⟩⟩⟩⟩⟩⟩⟩⟩ <;>
    simp [matchClasses, gstClasses, gstGrammarAmended, Bool.and_assoc]

theorem matchClasses_pan_take (s : List Char) :
    matchClasses panClasses s = panGrammar (s.take 10) := by
  rcases s with _ | ⟨a, _ | ⟨b, _ | ⟨c, _ | ⟨d, _ | ⟨e, _ | ⟨f, _ | ⟨g, _ |
    ⟨h, _ | ⟨i, _ | ⟨j, s⟩⟩⟩⟩⟩⟩⟩⟩⟩⟩ <;>
    simp [matchClasses, panClasses, panGrammar, Bool.and_assoc]

/-- a successful findFirst result is the match at the least matching start
position: the content of leftmost-first search. -/
theorem findFirst_eq_some (cls : List (Char → Bool)) :
    ∀ (text : List Char) (m : List Char), findFirst cls text = some m →
      ∃ i, matchClasses cls (text.drop i) = true ∧
        (∀ j, j < i → matchClasses cls (text.drop j) = false) ∧
        m = (text.drop i).take cls.length := by
  intro text
  induction text with
  | nil =>
    intro m h
    simp only [findFirst] at h
    by_cases hm : matchClasses cls [] = true
    · rw [if_pos hm] at h
      exact ⟨0, by simpa using hm, by omega, by simpa using (Option.some.inj h).symm⟩
    · rw [if_neg hm] at h
      simp at h
  | cons c rest ih =>
    intro m h
    simp only [findFirst] at h
    by_cases hm : matchClasses cls (c :: rest) = true
    · rw [if_pos hm] at h
      exact ⟨0, by simpa using hm, by omega, by simpa using (Option.some.inj h).symm⟩
    · rw [if_neg hm] at h
      obtain ⟨i, h1, h2, h3⟩ := ih m h
      refine ⟨i + 1, by simpa using h1, ?_, by simpa using h3⟩
      intro j hj
      cases j with
      | zero => simpa using hm
      | succ j => exact h2 j (by omega)

/-- conversely, a match anywhere in the text makes findFirst succeed. -/
theorem findFirst_isSome_of_match (cls : List (Char → Bool))
    (hnil : matchClasses cls [] = false) :
    ∀ (text : List Char) (i : Nat), matchClasses cls (text.drop i) = true →
      (findFirst cls text).isSome := by
  intro text
  induction text with
  | nil => intro i h; simp [List.drop_nil, hnil] at h
  | cons c rest ih =>
    intro i h
    simp only [findFirst]
    by_cases hm : matchClasses cls (c :: rest) = true
    · simp [hm]
    · rw [if_neg hm]
      cases i with
      | zero => simp only [List.drop_zero] at h; exact absurd h hm
      | succ i => exact ih i (by simpa using h)

theorem matchClasses_append (as bs : List (Char → Bool)) :
    ∀ s : List Char, matchClasses (as ++ bs) s = true →
      matchClasses bs (s.drop as.length) = true := by
  induction as with
  | nil => intro s h; simpa using h
  | cons p ps ih =>
    intro s h
    cases s with
    | nil => simp [matchClasses] at h
    | cons c cs =>
      simp only [List.cons_append, matchClasses, Bool.and_eq_true] at h
      simpa using ih cs h.2

theorem matchClasses_append_left (bs cs : List (Char → Bool)) :
    ∀ s : List Char, matchClasses (bs ++ cs) s = true →
      matchClasses bs s = true := by
  induction bs with
  | nil => intro s _; rfl
  | cons p ps ih =>
    intro s h
    cases s with
    | nil => simp [matchClasses] at h
    | cons c cs2 =>
      simp only [List.cons_append, matchClasses, Bool.and_eq_true] at h
      simp [matchClasses, h.1, ih cs2 h.2]

/-- class weakening: every char of a fixed-length match satisfies any
predicate implied by its class. -/
theorem matchClasses_take_all (P : Char → Bool) (cls : List (Char → Bool))
    (himp : ∀ p ∈ cls, ∀ c, p c = true → P c = true) :
    ∀ s : List Char, matchClasses cls s = true →
      (s.take cls.length).all P = true := by
  induction cls with
  | nil => intro s _; simp
  | cons p ps ih =>
    intro s h
    cases s with
    | nil => simp [matchClasses] at h
    | cons c cs =>
      simp only [matchClasses, Bool.and_eq_true] at h
      have h1 : P c = true := himp p (by simp) c h.1
      have h2 := ih (fun q hq => himp q (by simp [hq]) ) cs h.2
      simp [List.all_cons, h1, h2]

/-- the lazy extension returns a reversed nonempty accumulator. -/
theorem lazyExt_ne_nil (term : List Char → Bool) :
    ∀ (rest acc cap : List Char), lazyExt term acc rest = some cap →
      acc ≠ [] → cap ≠ [] := by
  intro rest
  induction rest with
  | nil =>
    intro acc cap h hacc
    simp only [lazyExt] at h
    by_cases ht : term [] = true
    · rw [if_pos ht] at h
      rw [← Option.some.inj h]
      simpa using hacc
    · rw [if_neg ht] at h; simp at h
  | cons c r ih =>
    intro acc cap h hacc
    simp only [lazyExt] at h
    by_cases ht : term (c :: r) = true
    · rw [if_pos ht] at h
      rw [← Option.some.inj h]
      simpa using hacc
    · rw [if_neg ht] at h
      by_cases hn : isNameChar c = true
      · rw [if_pos hn] at h; exact ih (c :: acc) cap h (by simp)
      · rw [if_neg hn] at h; simp at h

/-- the lazy capture never returns the empty string (one class char is
mandatory before the terminator may fire). -/
theorem lazyCapture_ne_nil (term : List Char → Bool) :
    ∀ (rest cap : List Char), lazyCapture term rest = some cap → cap ≠ [] := by
  intro rest cap h
  cases rest with
  | nil => simp [lazyCapture] at h
  | cons c r =>
    simp only [lazyCapture] at h
    by_cases hn : isNameChar c = true
    · rw [if_pos hn] at h; exact lazyExt_ne_nil term r [c] cap h (by simp)
    · rw [if_neg hn] at h; simp at h

theorem wsCapture_ne_nil (term : List Char → Bool) :
    ∀ (rest cap : List Char), wsCapture term rest = some cap → cap ≠ [] := by
  intro rest
  induction rest with
  | nil =>
    intro cap h
    simp only [wsCapture] at h
    exact lazyCapture_ne_nil term [] cap h
  | cons c r ih =>
    intro cap h
    simp only [wsCapture] at h
    by_cases hw : isWsChar c = true
    · rw [if_pos hw] at h
      cases hrec : wsCapture term r with
      | some res => rw [hrec] at h; exact (Option.some.inj h) ▸ ih res hrec
      | none => rw [hrec] at h; exact lazyCapture_ne_nil term _ cap h
    · rw [if_neg hw] at h
      exact lazyCapture_ne_nil term _ cap h

theorem nameSearch_ne_nil (label : List Char) (stops : List (List Char)) :
    ∀ (text cap : List Char), nameSearch label stops text = some cap →
      cap ≠ [] := by
  intro text
  induction text with
  | nil => intro cap h; simp [nameSearch] at h
  | cons c rest ih =>
    intro cap h
    simp only [nameSearch] at h
    by_cases hp : label.isPrefixOf (c :: rest) = true
    · simp only [hp, if_true] at h
      cases hrec : wsCapture (termAfter stops) ((c :: rest).drop label.length) with
      | some res =>
        rw [hrec] at h; simp at h
        exact h ▸ wsCapture_ne_nil _ _ res hrec
      | none => rw [hrec] at h; simp at h; exact ih cap h
    · simp [Bool.not_eq_true] at hp
      simp [hp] at h
      exact ih cap h

/-- the signature carried in a successful GST certificate is the document's
signature, verbatim. -/
theorem verify_gst_sig (doc : VerifiedDocument) (c : GSTCertificate)
    (h : verify_gst_certificate doc = .ok c) :
    c.signature = doc.signature := by
  simp only [verify_gst_certificate] at h
  cases h1 : findFirst gstClasses (joinPages doc.pages) with
  | none => rw [h1] at h; simp at h
  | some g =>
    rw [h1] at h
    cases h2 : nameSearch gstNameLabel gstNameStops (joinPages doc.pages) with
    | none => rw [h2] at h; simp at h
    | some cap => rw [h2] at h; simp at h; rw [← h]

theorem verify_pan_sig (doc : VerifiedDocument) (c : PANCertificate)
    (h : verify_pan_certificate doc = .ok c) :
    c.signature = doc.signature := by
  simp only [verify_pan_certificate] at h
  cases h1 : findFirst panClasses (joinPages doc.pages) with
  | none => rw [h1] at h; simp at h
  | some g =>
    rw [h1] at h
    cases h2 : nameSearch panNameLabel panNameStops (joinPages doc.pages) with
    | none => rw [h2] at h; simp at h
    | some cap => rw [h2] at h; simp at h; rw [← h]

theorem joinPages_eq_specJoin : ∀ pages, joinPages pages = specJoin pages := by
  intro pages
  induction pages with
  | nil => rfl
  | cons p rest ih =>
    cases rest with
    | nil => simp [joinPages, List.intercalate, specJoin]
    | cons q rest2 =>
      simp only [joinPages, List.intercalate] at ih ⊢
      rw [List.intersperse_cons_cons, List.flatten_cons, List.flatten_cons,
        specJoin, ← ih]
      simp

/-! ## Concrete fixture documents used by witnesses and counterexamples -/

def sig1 : PdfSignatureResult := ⟨true, [1, 2], [3, 4]⟩

/-- a document whose text satisfies both the GST and the PAN patterns,
together with both name labels. -/
def doc1 : VerifiedDocument :=
  ⟨["22AAAAA0000A1Z5 Legal Name Bob\n z".toList], sig1⟩

def cert1 : GSTCertificate :=
  ⟨"22AAAAA0000A1Z5".toList, "Bob".toList, sig1⟩

def pcert1 : PANCertificate :=
  ⟨"AAAAA0000A".toList, "Bob".toList, sig1⟩

/-- a document that fails GST extraction but passes PAN extraction. -/
def doc2 : VerifiedDocument := ⟨["AAAAA0000A Name Bob\n".toList], sig1⟩

def pcert2 : PANCertificate :=
  ⟨"AAAAA0000A".toList, "Bob".toList, sig1⟩

/-- the empty page sequence boundary case. -/
def docEmpty : VerifiedDocument := ⟨[], sig1⟩

/-- label present, capture trims to empty: the Legal Name label is followed
only by whitespace up to the end of the text. -/
def doc5 : VerifiedDocument := ⟨["22AAAAA0000A1Z5 Legal Name \n".toList], sig1⟩

/-- doc1 with an invalid upstream signature flag. -/
def sig6 : PdfSignatureResult := ⟨false, [1, 2], [3, 4]⟩

def doc6 : VerifiedDocument :=
  ⟨["22AAAAA0000A1Z5 Legal Name Bob\n z".toList], sig6⟩

def cert6 : GSTCertificate :=
  ⟨"22AAAAA0000A1Z5".toList, "Bob".toList, sig6⟩

/-- the round-trip page of the spec's scenario. -/
def page7 : List Char :=
  "... GSTIN 22AAAAA0000A1Z5 ... Legal Name Acme Traders Pvt Ltd\n Trade Name ...".toList

/-! ## Claim theorems -/

/-- Claim C1: the classifier attempts GST extraction first and, when it
succeeds, emits the GST record without the result ever depending on PAN
extraction; PAN extraction decides the output only after GST extraction has
failed.  In particular a document whose text satisfies both patterns (GST
extraction succeeds) is always classified GST. -/
theorem classify_gst_priority :
    (∀ doc c, verify_gst_certificate doc = .ok c →
      mainProgram doc = .gstRecord ⟨c.gst_number, c.legal_name,
        c.signature.is_valid, gst_generate_commitment c,
        keccak256 c.signature.public_key⟩) ∧
    (∀ doc e c, verify_gst_certificate doc = .error e →
      verify_pan_certificate doc = .ok c →
      mainProgram doc = .panRecord ⟨c.pan_number, c.legal_name,
        c.signature.is_valid, pan_generate_commitment c,
        keccak256 c.signature.public_key⟩) := by
  constructor
  · intro doc c h
    simp [mainProgram, h]
  · intro doc e c h1 h2
    simp [mainProgram, h1, h2]

/-- witness for C1 at concrete inputs: doc1 satisfies both patterns and is
classified GST; doc2 fails GST and is classified PAN. -/
theorem classify_gst_priority_witness :
    (verify_gst_certificate doc1 = .ok cert1 ∧
      mainProgram doc1 = .gstRecord ⟨cert1.gst_number, cert1.legal_name,
        cert1.signature.is_valid, gst_generate_commitment cert1,
        keccak256 cert1.signature.public_key⟩) ∧
    (verify_gst_certificate doc2 = .error .GSTNumberNotFound ∧
      verify_pan_certificate doc2 = .ok pcert2 ∧
      mainProgram doc2 = .panRecord ⟨pcert2.pan_number, pcert2.legal_name,
        pcert2.signature.is_valid, pan_generate_commitment pcert2,
        keccak256 pcert2.signature.public_key⟩) :=
  ⟨⟨by rfl, classify_gst_priority.1 doc1 cert1 (by rfl)⟩,
   ⟨by rfl, by rfl,
     classify_gst_priority.2 doc2 .GSTNumberNotFound pcert2 (by rfl) (by rfl)⟩⟩

/-- Claim C2 counterexample: the claim says that when both extractions fail
the program returns the typed failure UnrecognizedCredential as a result
value and never panics.  The code has no such result value: on the empty
page sequence both extractions fail and main reaches its panic branch. -/
theorem unrecognized_credential_counterexample :
    mainProgram docEmpty = .panic panicMsg := by rfl

/-- Claim C2 as amended: for every document for which both GST and PAN
extraction fail (including the empty page sequence), the program panics with
the fixed message, discarding the sub-errors; it does not emit a record and
does not return a typed failure value. -/
theorem both_fail_panic :
    ∀ doc e1 e2, verify_gst_certificate doc = .error e1 →
      verify_pan_certificate doc = .error e2 →
      mainProgram doc = .panic panicMsg := by
  intro doc e1 e2 h1 h2
  simp [mainProgram, h1, h2]

/-- witness for the amended C2 at the empty page sequence. -/
theorem both_fail_panic_witness :
    verify_gst_certificate docEmpty = .error .GSTNumberNotFound ∧
      verify_pan_certificate docEmpty = .error .PANNumberNotFound ∧
      mainProgram docEmpty = .panic panicMsg :=
  ⟨by rfl, by rfl,
    both_fail_panic docEmpty .GSTNumberNotFound .PANNumberNotFound
      (by rfl) (by rfl)⟩

/-- Claim C3: both commitment builders compute the 32-byte keccak-256 digest
of message_digest, identifier UTF-8 bytes, legal-name UTF-8 bytes, public
key, concatenated in that exact order with no delimiters or length prefixes
(commitSpec is that spec-side contract). -/
theorem commitment_spec_concat :
    ∀ (g : GSTCertificate) (p : PANCertificate),
      gst_generate_commitment g =
        commitSpec g.gst_number g.legal_name
          g.signature.message_digest g.signature.public_key ∧
      pan_generate_commitment p =
        commitSpec p.pan_number p.legal_name
          p.signature.message_digest p.signature.public_key ∧
      (gst_generate_commitment g).length = 32 ∧
      (pan_generate_commitment p).length = 32 := by
  intro g p
  refine ⟨?_, ?_, ?_, ?_⟩
  · rw [gst_commitment_concat]; rfl
  · rw [pan_commitment_concat]; rfl
  · rw [gst_commitment_concat]; exact keccak256_length _
  · rw [pan_commitment_concat]; exact keccak256_length _

def sigC : PdfSignatureResult := ⟨true, [9, 9], [7, 7]⟩

/-- Claim C10: the commitment does not determine the field split: moving a
character across the undelimited identifier/name boundary yields a distinct
(identifier, legal_name) pair with a byte-for-byte equal commitment, for
both builders, under the same message digest and public key. -/
theorem commitment_boundary_collision :
    gst_generate_commitment ⟨['A', 'B'], ['C'], sigC⟩ =
        gst_generate_commitment ⟨['A'], ['B', 'C'], sigC⟩ ∧
      pan_generate_commitment ⟨['A', 'B'], ['C'], sigC⟩ =
        pan_generate_commitment ⟨['A'], ['B', 'C'], sigC⟩ ∧
      ((['A', 'B'], ['C']) : List Char × List Char) ≠ (['A'], ['B', 'C']) := by
  refine ⟨?_, ?_, by decide⟩
  · rw [gst_commitment_concat, gst_commitment_concat]; rfl
  · rw [pan_commitment_concat, pan_commitment_concat]; rfl

theorem entity_upper_digit (c : Char) (h : isEntityChar c = true) :
    (isUpperChar c || isDigitChar c) = true := by
  simp only [isEntityChar, Bool.or_eq_true, Bool.and_eq_true, Nat.ble_eq] at h
  rcases h with ⟨h1, h2⟩ | h
  · simp only [Bool.or_eq_true, isDigitChar, Bool.and_eq_true, Nat.ble_eq]
    right; omega
  · simp [h]

theorem alnum_upper_digit (c : Char) (h : isAlnumChar c = true) :
    (isUpperChar c || isDigitChar c) = true := by
  simp only [isAlnumChar, Bool.or_eq_true] at h
  rcases h with h | h <;> simp [h]

theorem zChar_upper (c : Char) (h : (c == 'Z') = true) :
    (isUpperChar c || isDigitChar c) = true := by
  have hc : c = 'Z' := by simpa using h
  subst hc
  decide

theorem gstClasses_upper_digit :
    ∀ p ∈ gstClasses, ∀ c, p c = true →
      (isUpperChar c || isDigitChar c) = true := by
  intro p hp c hc
  simp only [gstClasses, List.mem_cons, List.not_mem_nil, or_false] at hp
  rcases hp with h|h|h|h|h|h|h|h|h|h|h|h|h|h|h <;> subst h <;>
    first
      | exact entity_upper_digit c hc
      | exact zChar_upper c hc
      | exact alnum_upper_digit c hc
      | simp [hc]

theorem panClasses_upper_digit :
    ∀ p ∈ panClasses, ∀ c, p c = true →
      (isUpperChar c || isDigitChar c) = true := by
  intro p hp c hc
  simp only [panClasses, List.mem_cons, List.not_mem_nil, or_false] at hp
  rcases hp with h|h|h|h|h|h|h|h|h|h <;> subst h <;> simp [hc]

/-- the GST class list contains the PAN class list at offset 2. -/
theorem gstClasses_decomp :
    gstClasses = [isDigitChar, isDigitChar] ++ panClasses ++
      [isEntityChar, (fun c => c == 'Z'), isAlnumChar] := rfl

/-- Claim C4 counterexample: the string 22AAAAA0000A0Z5 belongs to the
grammar exactly as the claim words it (the character before the literal Z
may be any of 0-9 and A-Z), yet the source pattern does not match it
anywhere, because the source class there is [1-9A-Z]. -/
theorem gst_grammar_counterexample :
    gstGrammarClaim "22AAAAA0000A0Z5".toList = true ∧
      findFirst gstClasses "22AAAAA0000A0Z5".toList = none := by
  constructor
  · decide
  · decide

/-- Claim C4 as amended: the GST pattern accepts exactly the 15-character
strings of the grammar 2 digits, 5 uppercase letters, 4 digits, 1 uppercase
letter, 1 character from 1-9 or A-Z (zero excluded), literal Z, 1
alphanumeric; every occurrence of such a string in the text makes the search
succeed, and every returned match is such a string. -/
theorem gst_pattern_grammar :
    (∀ s : List Char, matchClasses gstClasses s = gstGrammarAmended (s.take 15)) ∧
    (∀ text m, findFirst gstClasses text = some m →
      gstGrammarAmended m = true) ∧
    (∀ text i, gstGrammarAmended ((text.drop i).take 15) = true →
      (findFirst gstClasses text).isSome = true) := by
  refine ⟨matchClasses_gst_take, ?_, ?_⟩
  · intro text m h
    obtain ⟨i, h1, _, h3⟩ := findFirst_eq_some _ text m h
    rw [matchClasses_gst_take] at h1
    rw [h3]
    exact h1
  · intro text i h
    apply findFirst_isSome_of_match gstClasses (by rfl) text i
    rw [matchClasses_gst_take]
    exact h

/-- witness for the amended C4 at concrete inputs. -/
theorem gst_pattern_grammar_witness :
    (matchClasses gstClasses "22AAAAA0000A1Z5 x".toList =
      gstGrammarAmended ("22AAAAA0000A1Z5 x".toList.take 15)) ∧
    gstGrammarAmended "22AAAAA0000A1Z5".toList = true ∧
    (findFirst gstClasses "x 22AAAAA0000A1Z5".toList).isSome = true :=
  ⟨gst_pattern_grammar.1 _,
   gst_pattern_grammar.2.1 "22AAAAA0000A1Z5 x".toList "22AAAAA0000A1Z5".toList
     (by rfl),
   gst_pattern_grammar.2.2 "x 22AAAAA0000A1Z5".toList 2 (by decide)⟩

/-- Claim C5 counterexample: in doc5 the Legal Name label is present and the
capture is the bare newline, which trims to the empty string; yet GST
extraction succeeds and returns a record whose legal_name is the empty
string, instead of failing with LegalNameNotFound. -/
theorem empty_legal_name_counterexample :
    verify_gst_certificate doc5 =
      .ok ⟨"22AAAAA0000A1Z5".toList, [], sig1⟩ := by rfl

/-- Claim C5 as amended: extraction fails with LegalNameNotFound exactly
when the identifier was found but the name pattern does not match at all;
when the pattern matches, the raw capture is necessarily nonempty (one class
character is mandatory), but the stored legal_name is the trimmed capture,
which may be the empty string, and extraction succeeds regardless. -/
theorem legal_name_trim_amended :
    (∀ doc, verify_gst_certificate doc = .error .LegalNameNotFound ↔
      ((findFirst gstClasses (joinPages doc.pages)).isSome = true ∧
        nameSearch gstNameLabel gstNameStops (joinPages doc.pages) = none)) ∧
    (∀ doc c, verify_gst_certificate doc = .ok c →
      ∃ cap, nameSearch gstNameLabel gstNameStops (joinPages doc.pages) = some cap ∧
        cap ≠ [] ∧ c.legal_name = trimChars cap) ∧
    (∀ doc, verify_pan_certificate doc = .error .LegalNameNotFound ↔
      ((findFirst panClasses (joinPages doc.pages)).isSome = true ∧
        nameSearch panNameLabel panNameStops (joinPages doc.pages) = none)) ∧
    (∀ doc c, verify_pan_certificate doc = .ok c →
      ∃ cap, nameSearch panNameLabel panNameStops (joinPages doc.pages) = some cap ∧
        cap ≠ [] ∧ c.legal_name = trimChars cap) := by
  refine ⟨?_, ?_, ?_, ?_⟩
  · intro doc
    simp only [verify_gst_certificate]
    cases h1 : findFirst gstClasses (joinPages doc.pages) with
    | none => simp [h1]
    | some g =>
      cases h2 : nameSearch gstNameLabel gstNameStops (joinPages doc.pages) with
      | none => simp [h1, h2]
      | some cap => simp [h1, h2]
  · intro doc c h
    simp only [verify_gst_certificate] at h
    cases h1 : findFirst gstClasses (joinPages doc.pages) with
    | none => rw [h1] at h; simp at h
    | some g =>
      rw [h1] at h
      cases h2 : nameSearch gstNameLabel gstNameStops (joinPages doc.pages) with
      | none => rw [h2] at h; simp at h
      | some cap =>
        rw [h2] at h
        simp only [Except.ok.injEq] at h
        exact ⟨cap, rfl, nameSearch_ne_nil _ _ _ cap h2, by rw [← h]⟩
  · intro doc
    simp only [verify_pan_certificate]
    cases h1 : findFirst panClasses (joinPages doc.pages) with
    | none => simp [h1]
    | some g =>
      cases h2 : nameSearch panNameLabel panNameStops (joinPages doc.pages) with
      | none => simp [h1, h2]
      | some cap => simp [h1, h2]
  · intro doc c h
    simp only [verify_pan_certificate] at h
    cases h1 : findFirst panClasses (joinPages doc.pages) with
    | none => rw [h1] at h; simp at h
    | some g =>
      rw [h1] at h
      cases h2 : nameSearch panNameLabel panNameStops (joinPages doc.pages) with
      | none => rw [h2] at h; simp at h
      | some cap =>
        rw [h2] at h
        simp only [Except.ok.injEq] at h
        exact ⟨cap, rfl, nameSearch_ne_nil _ _ _ cap h2, by rw [← h]⟩

/-- witness for the amended C5 at doc1 (GST and PAN both extract there). -/
theorem legal_name_trim_amended_witness :
    (∃ cap, nameSearch gstNameLabel gstNameStops (joinPages doc1.pages) = some cap ∧
      cap ≠ [] ∧ cert1.legal_name = trimChars cap) ∧
    (∃ cap, nameSearch panNameLabel panNameStops (joinPages doc1.pages) = some cap ∧
      cap ≠ [] ∧ pcert1.legal_name = trimChars cap) :=
  ⟨legal_name_trim_amended.2.1 doc1 cert1 (by rfl),
   legal_name_trim_amended.2.2.2 doc1 pcert1 (by rfl)⟩

/-- Claim C6: for every successfully classified document, the
signature_valid field of the emitted record equals the input document's
validity flag verbatim (the classifier copies, never recomputes, the flag). -/
theorem signature_valid_verbatim :
    (∀ doc v, mainProgram doc = .gstRecord v →
      v.signature_valid = doc.signature.is_valid) ∧
    (∀ doc v, mainProgram doc = .panRecord v →
      v.signature_valid = doc.signature.is_valid) := by
  constructor
  · intro doc v h
    simp only [mainProgram] at h
    cases hg : verify_gst_certificate doc with
    | ok c =>
      rw [hg] at h
      simp only [ProgramOutput.gstRecord.injEq] at h
      subst h
      show c.signature.is_valid = doc.signature.is_valid
      rw [verify_gst_sig doc c hg]
    | error e =>
      rw [hg] at h
      cases hp : verify_pan_certificate doc with
      | ok p => rw [hp] at h; simp at h
      | error e2 => rw [hp] at h; simp at h
  · intro doc v h
    simp only [mainProgram] at h
    cases hg : verify_gst_certificate doc with
    | ok c => rw [hg] at h; simp at h
    | error e =>
      rw [hg] at h
      cases hp : verify_pan_certificate doc with
      | ok p =>
        rw [hp] at h
        simp only [ProgramOutput.panRecord.injEq] at h
        subst h
        show p.signature.is_valid = doc.signature.is_valid
        rw [verify_pan_sig doc p hp]
      | error e2 => rw [hp] at h; simp at h

def v6 : GSTValuesStruct :=
  ⟨cert6.gst_number, cert6.legal_name, cert6.signature.is_valid,
    gst_generate_commitment cert6, keccak256 cert6.signature.public_key⟩

/-- witness for C6: doc6 extracts successfully although its signature flag
is false, and the emitted record copies the false flag verbatim. -/
theorem signature_valid_verbatim_witness :
    mainProgram doc6 = .gstRecord v6 ∧
      v6.signature_valid = doc6.signature.is_valid ∧
      doc6.signature.is_valid = false :=
  ⟨by rfl, signature_valid_verbatim.1 doc6 v6 (by rfl), by rfl⟩

/-- Claim C7: the round-trip scenario: for every message digest D and public
key K, the pipeline on the spec's page emits the GST record with the exact
identifier and trimmed name, the validity flag true, the commitment
keccak-256 of D, identifier bytes, name bytes, K, and the key hash
keccak-256 of K. -/
theorem round_trip_scenario :
    ∀ D K : List Nat,
      mainProgram ⟨[page7], ⟨true, D, K⟩⟩ =
        .gstRecord ⟨"22AAAAA0000A1Z5".toList, "Acme Traders Pvt Ltd".toList,
          true,
          keccak256 (D ++ strBytes "22AAAAA0000A1Z5".toList ++
            strBytes "Acme Traders Pvt Ltd".toList ++ K),
          keccak256 K⟩ := by
  intro D K
  have h : verify_gst_certificate ⟨[page7], ⟨true, D, K⟩⟩ =
      .ok ⟨"22AAAAA0000A1Z5".toList, "Acme Traders Pvt Ltd".toList,
        ⟨true, D, K⟩⟩ := by rfl
  simp only [mainProgram, h]
  rw [gst_commitment_concat]

/-- Claim C8: extraction operates on the page texts joined with exactly one
space between consecutive pages (joinPages agrees with the spec-side
specJoin), the identifier returned is the match at the least start position
of the kind's pattern in that text (leftmost, no disambiguation among later
matches), and matching is case-sensitive: every matched identifier char is
an uppercase letter or digit, so lowercase variants never match. -/
theorem extraction_join_leftmost :
    (∀ pages, joinPages pages = specJoin pages) ∧
    (∀ doc c, verify_gst_certificate doc = .ok c →
      ∃ i, matchClasses gstClasses ((joinPages doc.pages).drop i) = true ∧
        (∀ j, j < i →
          matchClasses gstClasses ((joinPages doc.pages).drop j) = false) ∧
        c.gst_number = ((joinPages doc.pages).drop i).take 15) ∧
    (∀ doc c, verify_pan_certificate doc = .ok c →
      ∃ i, matchClasses panClasses ((joinPages doc.pages).drop i) = true ∧
        (∀ j, j < i →
          matchClasses panClasses ((joinPages doc.pages).drop j) = false) ∧
        c.pan_number = ((joinPages doc.pages).drop i).take 10) ∧
    (∀ text m, findFirst gstClasses text = some m →
      m.all (fun ch => isUpperChar ch || isDigitChar ch) = true) ∧
    (∀ text m, findFirst panClasses text = some m →
      m.all (fun ch => isUpperChar ch || isDigitChar ch) = true) := by
  refine ⟨joinPages_eq_specJoin, ?_, ?_, ?_, ?_⟩
  · intro doc c h
    simp only [verify_gst_certificate] at h
    cases h1 : findFirst gstClasses (joinPages doc.pages) with
    | none => rw [h1] at h; simp at h
    | some g =>
      rw [h1] at h
      cases h2 : nameSearch gstNameLabel gstNameStops (joinPages doc.pages) with
      | none => rw [h2] at h; simp at h
      | some cap =>
        rw [h2] at h
        simp only [Except.ok.injEq] at h
        obtain ⟨i, hm, hlt, hg⟩ := findFirst_eq_some _ _ _ h1
        exact ⟨i, hm, hlt, by rw [← h]; exact hg⟩
  · intro doc c h
    simp only [verify_pan_certificate] at h
    cases h1 : findFirst panClasses (joinPages doc.pages) with
    | none => rw [h1] at h; simp at h
    | some g =>
      rw [h1] at h
      cases h2 : nameSearch panNameLabel panNameStops (joinPages doc.pages) with
      | none => rw [h2] at h; simp at h
      | some cap =>
        rw [h2] at h
        simp only [Except.ok.injEq] at h
        obtain ⟨i, hm, hlt, hg⟩ := findFirst_eq_some _ _ _ h1
        exact ⟨i, hm, hlt, by rw [← h]; exact hg⟩
  · intro text m h
    obtain ⟨i, hm, _, hg⟩ := findFirst_eq_some _ _ _ h
    rw [hg]
    exact matchClasses_take_all _ gstClasses gstClasses_upper_digit _ hm
  · intro text m h
    obtain ⟨i, hm, _, hg⟩ := findFirst_eq_some _ _ _ h
    rw [hg]
    exact matchClasses_take_all _ panClasses panClasses_upper_digit _ hm

/-- witness for C8 at doc1 for both kinds plus the case-sensitivity parts. -/
theorem extraction_join_leftmost_witness :
    (∃ i, matchClasses gstClasses ((joinPages doc1.pages).drop i) = true ∧
      (∀ j, j < i →
        matchClasses gstClasses ((joinPages doc1.pages).drop j) = false) ∧
      cert1.gst_number = ((joinPages doc1.pages).drop i).take 15) ∧
    (∃ i, matchClasses panClasses ((joinPages doc1.pages).drop i) = true ∧
      (∀ j, j < i →
        matchClasses panClasses ((joinPages doc1.pages).drop j) = false) ∧
      pcert1.pan_number = ((joinPages doc1.pages).drop i).take 10) ∧
    cert1.gst_number.all (fun ch => isUpperChar ch || isDigitChar ch) = true :=
  ⟨extraction_join_leftmost.2.1 doc1 cert1 (by rfl),
   extraction_join_leftmost.2.2.1 doc1 pcert1 (by rfl),
   extraction_join_leftmost.2.2.2.1 (joinPages doc1.pages) cert1.gst_number
     (by rfl)⟩

/-- Claim C9: whenever the GST pattern matches somewhere in the text, the
PAN pattern also matches that text — characters 3 through 12 of a GST
grammar string (5 uppercase letters, 4 digits, 1 uppercase letter) form a
PAN grammar string — so only the GST-before-PAN priority prevents GST
documents from classifying as PAN. -/
theorem gst_match_implies_pan_match :
    (∀ text, (findFirst gstClasses text).isSome = true →
      (findFirst panClasses text).isSome = true) ∧
    (∀ s, gstGrammarAmended s = true → panGrammar ((s.drop 2).take 10) = true) := by
  constructor
  · intro text h
    rw [Option.isSome_iff_exists] at h
    obtain ⟨m, hm⟩ := h
    obtain ⟨i, h1, _, _⟩ := findFirst_eq_some gstClasses text m hm
    rw [gstClasses_decomp] at h1
    have h2 := matchClasses_append [isDigitChar, isDigitChar] _ _ h1
    have h3 := matchClasses_append_left panClasses _ _ h2
    rw [List.drop_drop] at h3
    exact findFirst_isSome_of_match panClasses (by rfl) text _ h3
  · intro s h
    rcases s with _ | ⟨a, _ | ⟨b, _ | ⟨c, _ | ⟨d, _ | ⟨e, _ | ⟨f, _ | ⟨g, _ |
      ⟨h1, _ | ⟨i, _ | ⟨j, _ | ⟨k, _ | ⟨l, _ | ⟨m, _ | ⟨n, _ |
      ⟨o, _ | ⟨p, s⟩⟩⟩⟩⟩⟩⟩⟩⟩⟩⟩⟩⟩⟩⟩⟩ <;>
      simp_all [gstGrammarAmended, panGrammar]

/-- witness for C9 at a concrete GST string. -/
theorem gst_match_implies_pan_match_witness :
    (findFirst gstClasses "q 22AAAAA0000A1Z5".toList).isSome = true ∧
      (findFirst panClasses "q 22AAAAA0000A1Z5".toList).isSome = true ∧
      panGrammar (("22AAAAA0000A1Z5".toList.drop 2).take 10) = true :=
  ⟨by decide,
   gst_match_implies_pan_match.1 "q 22AAAAA0000A1Z5".toList (by decide),
   gst_match_implies_pan_match.2 "22AAAAA0000A1Z5".toList (by decide)⟩


/-- witness for C3 at a concrete certificate pair. -/
theorem commitment_spec_concat_witness :
    gst_generate_commitment cert1 =
        commitSpec cert1.gst_number cert1.legal_name

          cert1.signature.message_digest cert1.signature.public_key ∧
      pan_generate_commitment pcert1 =
        commitSpec pcert1.pan_number pcert1.legal_name
          pcert1.signature.message_digest pcert1.signature.public_key ∧
      (gst_generate_commitment cert1).length = 32 ∧
      (pan_generate_commitment pcert1).length = 32 :=
  commitment_spec_concat cert1 pcert1

/-- witness for C7 at a concrete digest and key. -/
theorem round_trip_scenario_witness :
    mainProgram ⟨[page7], ⟨true, [5, 5], [6, 6]⟩⟩ =
      .gstRecord ⟨"22AAAAA0000A1Z5".toList, "Acme Traders Pvt Ltd".toList,
        true,
        keccak256 ([5, 5] ++ strBytes "22AAAAA0000A1Z5".toList ++
          strBytes "Acme Traders Pvt Ltd".toList ++ [6, 6]),
        keccak256 [6, 6]⟩ :=
  round_trip_scenario [5, 5] [6, 6]
